import Mathlib

/-!
Verification of the FileForge format-dispatch conversion engine.

This file gives a shallow embedding, in Lean 4, of the decision logic of the
FileForge conversion core: the format-compatibility registry and dispatch
decisions (`backend/utils.py`, `backend/main.py`, `converters.py`), PDF text
extraction (`backend/converters/document.py` and the module-layer
`converters.py`), image transparency handling (`backend/converters/image.py`),
JSON structure auto-detection, tabular transformations and CSV decoding
(`backend/converters/data.py`), option validation, and batch aggregation
(`converters.py`).  Python dicts become association lists, machine floats that
only ever accumulate are represented as rationals, byte strings become lists
of naturals, and functions that raise become `Except`-valued functions.
Theorems at the end of the file settle the specified properties against these
definitions.
-/

/-! ### String helpers

Python's `str.lower`, `str.lstrip(".")` and `str.strip()` are modelled
character-by-character on the underlying character list (the corresponding
Lean core functions are not kernel-reducible).
-/

/-- ASCII lower-casing of one character, as `str.lower` acts on the
format/extension strings appearing in this code base: code points 65-90
(`A`-`Z`) shift by 32. -/
def charLower (c : Char) : Char :=
  if 65 ≤ c.toNat ∧ c.toNat ≤ 90 then Char.ofNat (c.toNat + 32) else c

/-- Model of Python `s.lower()` for the ASCII format strings used here. -/
def strLower (s : String) : String := ⟨s.data.map charLower⟩

/-- Model of Python `s.lstrip(".")`: drop leading dots. -/
def lstripDots (s : String) : String := ⟨s.data.dropWhile (· = '.')⟩

/-- Model of Python `s.strip()`: drop leading and trailing whitespace. -/
def trimStr (s : String) : String :=
  ⟨((s.data.dropWhile Char.isWhitespace).reverse.dropWhile Char.isWhitespace).reverse⟩

/-- Model of Python `range(a, b)` over integers. -/
def pyRange (a b : Int) : List Int :=
  (List.range (b - a).toNat).map (fun (i : Nat) => a + (i : Int))

/-! ### Format registry (`backend/utils.py`)  -/

/-- `FORMAT_COMPATIBILITY` from `backend/utils.py` lines 55-70: mapping of
input formats to their compatible output formats, transcribed verbatim. -/
def FORMAT_COMPATIBILITY : List (String × List String) :=
  [ ("png", ["jpg", "jpeg", "webp", "bmp", "gif"]),
    ("jpg", ["png", "webp", "bmp", "gif"]),
    ("jpeg", ["png", "webp", "bmp", "gif"]),
    ("webp", ["png", "jpg", "jpeg", "bmp", "gif"]),
    ("bmp", ["png", "jpg", "jpeg", "webp", "gif"]),
    ("gif", ["png", "jpg", "jpeg", "webp", "bmp"]),
    ("pdf", ["txt", "png", "jpg"]),
    ("csv", ["json", "xlsx"]),
    ("json", ["csv", "xlsx"]),
    ("xlsx", ["csv", "json"]),
    ("xls", ["csv", "json"]) ]

/-- The registered input formats: the keys of `FORMAT_COMPATIBILITY`. -/
def registeredFormats : List String := FORMAT_COMPATIBILITY.map Prod.fst

/-- Normalisation `input_format.lower().lstrip(".")` used by
`get_compatible_formats` and `validate_conversion` in `backend/utils.py`. -/
def normalizeFormat (s : String) : String := lstripDots (strLower s)

/-- `get_compatible_formats` from `backend/utils.py` lines 130-141:
look up the normalised format in `FORMAT_COMPATIBILITY`, defaulting to `[]`. -/
def get_compatible_formats (input_format : String) : List String :=
  (FORMAT_COMPATIBILITY.lookup (normalizeFormat input_format)).getD []

/-- `validate_conversion` from `backend/utils.py` lines 195-207: the output
format, normalised, must be a member of the input format's compatibility
list. -/
def validate_conversion (input_format output_format : String) : Bool :=
  (get_compatible_formats input_format).contains (normalizeFormat output_format)

/-! ### Backend dispatch (`backend/main.py` `convert_file`) -/

/-- Outcome of the backend dispatcher's format validation. -/
inductive DispatchOutcome
  | accept
  | reject (detail : String)
deriving DecidableEq

/-- The format-validation step of `convert_file` in `backend/main.py`
lines 341-364: the requested output format is lower-cased and stripped of
leading dots, then the pair is checked with `validate_conversion`; on failure
the request is rejected with HTTP 400 and detail
"Cannot convert {input} to {output}", otherwise the conversion proceeds. -/
def backendConvertDispatch (input_format raw_output_format : String) : DispatchOutcome :=
  let output_format := normalizeFormat raw_output_format
  if validate_conversion input_format output_format then
    DispatchOutcome.accept
  else
    DispatchOutcome.reject ("Cannot convert " ++ input_format ++ " to " ++ output_format)

/-! ### Module-layer data converter routing (`converters.py` `DataConverter.convert`) -/

/-- `DataFormat` from `converters.py` lines 872-877 (`xls` maps to `EXCEL`
via `from_extension`). -/
inductive DataFormat
  | csv
  | json
  | excel
deriving DecidableEq

/-- The `value` of a `DataFormat` member (`csv`, `json`, `xlsx`). -/
def DataFormat.value : DataFormat → String
  | .csv => "csv"
  | .json => "json"
  | .excel => "xlsx"

/-- The keys of `conversion_map` in `DataConverter.convert`
(`converters.py` lines 1013-1020): the six supported ordered pairs. -/
def dataConversionPairs : List (DataFormat × DataFormat) :=
  [ (.csv, .json), (.json, .csv), (.csv, .excel),
    (.excel, .csv), (.json, .excel), (.excel, .json) ]

/-- Outcome of the routing step of `DataConverter.convert`. -/
inductive DataRoute
  | convertPair (src dst : DataFormat)
  | sameFormatError (fmt : String)
  | unsupportedPairError (src dst : String)
deriving DecidableEq

/-- The routing step of `DataConverter.convert` in `converters.py`
lines 1012-1033: look up the `(input, output)` pair in `conversion_map`; when
absent, raise "Source and target formats are the same: X" if the two formats
are equal, otherwise "Conversion from X to Y is not supported". -/
def dataConverterRoute (input_format output_format : DataFormat) : DataRoute :=
  if (input_format, output_format) ∈ dataConversionPairs then
    DataRoute.convertPair input_format output_format
  else if input_format = output_format then
    DataRoute.sameFormatError input_format.value
  else
    DataRoute.unsupportedPairError input_format.value output_format.value

/-! ### Module-layer factory routing (`converters.py` `ConverterFactory`) -/

/-- Route chosen by `ConverterFactory.convert` (`converters.py`
lines 1694-1764). -/
inductive FactoryRoute
  | imageConvert
  | documentToText
  | documentToImages
  | documentUnsupported (ext : String)
  | dataConvert
  | unsupportedInput (ext : String)
deriving DecidableEq

/-- `ConverterFactory.get_format_category` (`converters.py` lines 1681-1692):
category of a file from its lower-cased suffix. -/
def get_format_category (ext : String) : Option String :=
  let e := strLower ext
  if e ∈ [".png", ".jpg", ".webp", ".bmp", ".gif", ".jpeg"] then some "image"
  else if e = ".pdf" then some "document"
  else if e ∈ [".csv", ".json", ".xlsx", ".xls"] then some "data"
  else none

/-- The routing of `ConverterFactory.convert` (`converters.py`
lines 1718-1764): image inputs go straight to `ImageConverter.convert`
(which performs no format-pair compatibility or same-format check), document
inputs are routed on the output suffix, data inputs go to
`DataConverter.convert`, anything else raises `UnsupportedFormatError`. -/
def factoryConvertRoute (inputExt outputExt : String) : FactoryRoute :=
  match get_format_category inputExt with
  | some "image" => FactoryRoute.imageConvert
  | some "document" =>
      let oe := strLower outputExt
      if oe = ".txt" then FactoryRoute.documentToText
      else if oe ∈ [".png", ".jpg", ".jpeg", ".webp"] then FactoryRoute.documentToImages
      else FactoryRoute.documentUnsupported oe
  | some "data" => FactoryRoute.dataConvert
  | _ => FactoryRoute.unsupportedInput inputExt

/-! ### PDF text extraction

A PDF document is modelled by the list of its per-page extracted text
strings (`page.extract_text()` per page); the page count is the length of
the list.  Both implementations of text extraction in the repository are
embedded: the backend pipeline (`backend/converters/document.py`) and the
module layer (`converters.py` `DocumentConverter.pdf_to_text`).
-/

/-- A PDF document, as the list of extracted text strings of its pages. -/
abbrev PdfDocument := List String

/-- `MAX_PDF_PAGES` from `backend/converters/document.py` line 25. -/
def MAX_PDF_PAGES : Nat := 500

/-- `MAX_TEXT_SIZE_MB` from `backend/converters/document.py` line 26. -/
def MAX_TEXT_SIZE_MB : Nat := 50

/-- Page-number selection of `_convert_pdf_to_text`
(`backend/converters/document.py` lines 158-172): with a supplied range the
start is clamped with `max(0, start)` and the end with
`min(total_pages, end)`, and the pages are `range(start_page, end_page)`;
without a range all pages are processed. -/
def backendSelectedPages (page_range : Option (Int × Int)) (totalPages : Nat) : List Int :=
  match page_range with
  | some (s, e) => pyRange (max 0 s) (min (totalPages : Int) e)
  | none => pyRange 0 (totalPages : Nat)

/-- The page-marker prefix `f"--- Page {page_num + 1} ---\n"`. -/
def pageMarker (n : Int) : String := "--- Page " ++ toString n ++ " ---\n"

/-- The `text_parts` accumulation of `_convert_pdf_to_text`
(`backend/converters/document.py` lines 169-179): for each selected page,
if the page's extracted text is non-empty, append the page marker, the text,
and a `"\n\n"` separator; pages with empty text contribute nothing. -/
def backendTextParts (pdf : PdfDocument) (page_range : Option (Int × Int)) : List String :=
  (backendSelectedPages page_range pdf.length).foldl
    (fun parts pageNum =>
      let pageText := pdf.getD pageNum.toNat ""
      if pageText ≠ "" then
        parts ++ [pageMarker (pageNum + 1), pageText, "\n\n"]
      else parts)
    []

/-- `full_text = "".join(text_parts)` in `_convert_pdf_to_text`
(`backend/converters/document.py` line 187). -/
def backendFullText (pdf : PdfDocument) (page_range : Option (Int × Int)) : String :=
  String.join (backendTextParts pdf page_range)

/-- Failure modes of `_convert_pdf_to_text`: both are raised as
`DocumentConversionError` (the spec's `ResourceLimit` kind) before the output
file is written. -/
inductive DocumentError
  | tooManyPages (pages : Nat)
  | textTooLarge (bytes : Nat)
deriving DecidableEq

/-- `_convert_pdf_to_text` from `backend/converters/document.py`
lines 122-210: fail with the page-limit error when
`total_pages > MAX_PDF_PAGES`, before extracting any page; otherwise build
the full text, and fail with the text-size error when
`len(full_text.encode("utf-8")) / (1024*1024) > MAX_TEXT_SIZE_MB`
(equivalently, when the UTF-8 byte count exceeds `MAX_TEXT_SIZE_MB * 1024 *
1024`), before writing.  `Except.ok` carries the text written to the output
file; `Except.error` means no output artifact is produced. -/
def convert_pdf_to_text (pdf : PdfDocument) (page_range : Option (Int × Int)) :
    Except DocumentError String :=
  let totalPages := pdf.length
  if totalPages > MAX_PDF_PAGES then
    Except.error (DocumentError.tooManyPages totalPages)
  else
    let fullText := backendFullText pdf page_range
    if fullText.utf8ByteSize > MAX_TEXT_SIZE_MB * 1024 * 1024 then
      Except.error (DocumentError.textTooLarge fullText.utf8ByteSize)
    else
      Except.ok fullText

/-- Page-number selection of the module layer's `DocumentConverter.pdf_to_text`
(`converters.py` lines 682-693): with a supplied range, the start is
`min(page_range[0], total_pages - 1)` and the end is
`min(page_range[1] + 1, total_pages)`, then pages are
`range(start_page, end_page)`: the end bound is treated inclusively. -/
def moduleSelectedPages (page_range : Option (Int × Int)) (totalPages : Nat) : List Int :=
  match page_range with
  | some (s, e) => pyRange (min s ((totalPages : Int) - 1)) (min (e + 1) (totalPages : Int))
  | none => pyRange 0 (totalPages : Nat)

/-- The `extracted_text` parts of the module layer's `pdf_to_text`
(`converters.py` lines 693-699): every processed page appends
`f"--- Page {page_num + 1} ---\n{text}\n"`, with no emptiness check. -/
def modulePdfTextParts (pdf : PdfDocument) (page_range : Option (Int × Int)) : List String :=
  (moduleSelectedPages page_range pdf.length).map
    (fun pageNum => pageMarker (pageNum + 1) ++ pdf.getD pageNum.toNat "" ++ "\n")

/-- Python `sep.join(parts)`. -/
def joinWith (sep : String) : List String → String
  | [] => ""
  | [x] => x
  | x :: y :: rest => x ++ sep ++ joinWith sep (y :: rest)

/-- `full_text = "\n".join(extracted_text)` followed by the write, in the
module layer's `pdf_to_text` (`converters.py` line 705); this layer has no
page-count or text-size limit. -/
def module_pdf_to_text (pdf : PdfDocument) (page_range : Option (Int × Int)) : String :=
  joinWith "\n" (modulePdfTextParts pdf page_range)

/-! ### Image transparency handling (`backend/converters/image.py`)

A raster image is modelled by its PIL mode together with its pixel buffer,
one RGBA quadruple per pixel (for `P` and `L`/`LA` modes the quadruples hold
the palette-resolved / grey values, abstracting the palette itself).
`Image.paste(img, mask=alpha)` blends each channel of the pasted image over
the background with weight `alpha/255`, so a fully transparent pixel
(`alpha = 0`) yields exactly the background colour.
-/

/-- One pixel, as an RGBA quadruple of channel values in `[0, 255]`. -/
structure Pixel where
  r : Nat
  g : Nat
  b : Nat
  a : Nat
deriving DecidableEq

/-- The PIL image modes distinguished by `backend/converters/image.py`. -/
inductive PilMode
  | RGBA
  | RGB
  | LA
  | L
  | P
deriving DecidableEq

/-- A PIL image: its mode, its pixel buffer, and whether `"transparency"` is
present in `image.info` (relevant for `P` mode). -/
structure PilImage where
  mode : PilMode
  pixels : List Pixel
  hasTransparencyInfo : Bool
deriving DecidableEq

/-- An RGB colour. -/
structure RGBColor where
  r : Nat
  g : Nat
  b : Nat
deriving DecidableEq

/-- The options dict consumed by `ImageConverter._handle_transparency`:
`background_color` defaults to white `(255, 255, 255)`. -/
structure BackendImageOptions where
  background_color : Option RGBColor
deriving DecidableEq

/-- `NON_TRANSPARENT_FORMATS` from `backend/converters/image.py`
lines 22-23. -/
def NON_TRANSPARENT_FORMATS : List String := ["jpg", "jpeg", "bmp"]

/-- Per-channel blend of PIL's `paste` with an alpha mask: source weighted by
`a/255` over the background weighted by `(255-a)/255` (integer arithmetic
with rounding).  At `a = 0` this is the background channel exactly. -/
def blendChannel (bg src a : Nat) : Nat := (src * a + bg * (255 - a) + 127) / 255

/-- `background.paste(image, mask=image.split()[-1])` acting on one pixel:
blend each colour channel over the background colour; the result is opaque. -/
def pasteOntoBackground (bg : RGBColor) (p : Pixel) : Pixel :=
  ⟨blendChannel bg.r p.r p.a, blendChannel bg.g p.g p.a, blendChannel bg.b p.b p.a, 255⟩

/-- `image.convert("RGBA")`: the pixel quadruples are kept (palette/grey
expansion is abstracted), only the mode changes. -/
def convertToRGBA (img : PilImage) : PilImage :=
  { img with mode := PilMode.RGBA }

/-- `image.convert("RGB")`: the alpha channel is dropped (no compositing). -/
def convertToRGB (img : PilImage) : PilImage :=
  { mode := PilMode.RGB,
    pixels := img.pixels.map (fun p => { p with a := 255 }),
    hasTransparencyInfo := false }

/-- The fall-through tail of `_handle_transparency`
(`backend/converters/image.py` lines 249-253): modes other than `RGB`/`L`
are converted to `RGB`; `RGB`/`L` images are returned unchanged. -/
def handleTransparencyTail (image : PilImage) : PilImage :=
  if image.mode ∉ [PilMode.RGB, PilMode.L] then convertToRGB image else image

/-- `ImageConverter._handle_transparency` from `backend/converters/image.py`
lines 212-253: for `RGBA`/`LA`/`P` images, read the background colour from
the options (default white); a `P` image with a `"transparency"` info entry is
first converted to `RGBA`; an `RGBA`/`LA` image (after converting `LA` to
`RGBA`) is pasted onto an opaque background of the background colour and that
background is returned; everything else falls through to the `RGB`
coercion tail. -/
def handle_transparency (image0 : PilImage) (options : BackendImageOptions) : PilImage :=
  if image0.mode ∈ [PilMode.RGBA, PilMode.LA, PilMode.P] then
    let bgColor := options.background_color.getD ⟨255, 255, 255⟩
    let image1 :=
      if image0.mode = PilMode.P ∧ image0.hasTransparencyInfo
      then convertToRGBA image0 else image0
    if image1.mode ∈ [PilMode.RGBA, PilMode.LA] then
      let image2 := if image1.mode = PilMode.LA then convertToRGBA image1 else image1
      { mode := PilMode.RGB,
        pixels := image2.pixels.map (pasteOntoBackground bgColor),
        hasTransparencyInfo := false }
    else
      handleTransparencyTail image1
  else
    handleTransparencyTail image0

/-- Mode coercion performed by the per-format save handlers of
`backend/converters/image.py` (`_save_as_png`, `_save_as_jpeg`,
`_save_as_webp`, `_save_as_bmp`): JPEG and BMP force `RGB`/`L`, WEBP and PNG
force a mode in their allowed sets (converting to `RGBA` otherwise); the GIF
palette quantisation is not needed here and the image is kept as passed. -/
def saveModeCoerce (fmt : String) (image : PilImage) : PilImage :=
  if fmt ∈ ["jpg", "jpeg"] then
    (if image.mode ∉ [PilMode.RGB, PilMode.L] then convertToRGB image else image)
  else if fmt = "webp" then
    (if image.mode ∉ [PilMode.RGB, PilMode.RGBA, PilMode.L, PilMode.LA]
     then convertToRGBA image else image)
  else if fmt = "bmp" then
    (if image.mode ∉ [PilMode.RGB, PilMode.L] then convertToRGB image else image)
  else if fmt = "png" then
    (if image.mode ∉ [PilMode.RGB, PilMode.RGBA, PilMode.L, PilMode.LA, PilMode.P]
     then convertToRGBA image else image)
  else image

/-- The pixel pipeline of `ImageConverter.convert`
(`backend/converters/image.py` lines 96-139, without the resize step, which
is not requested here): normalise the output format, flatten transparency
when the output format is in `NON_TRANSPARENT_FORMATS`, then apply the save
handler's mode coercion. -/
def imageConvertPixels (output_format : String) (image : PilImage)
    (options : BackendImageOptions) : PilImage :=
  let fmt := normalizeFormat output_format
  let image := if fmt ∈ NON_TRANSPARENT_FORMATS then handle_transparency image options else image
  saveModeCoerce fmt image

/-! ### JSON reading (`backend/converters/data.py` `_read_json`)

A parsed JSON value is a standard inductive; a pandas `DataFrame` is
modelled column-major as an index (row labels), a column-name list, and the
cell data per column (`none` is `NaN`).
-/

/-- A parsed JSON value (`json.loads`). -/
inductive JsonVal
  | obj (fields : List (String × JsonVal))
  | arr (elems : List JsonVal)
  | str (s : String)
  | num (n : Int)
  | bool (b : Bool)
  | null

/-- Whether a JSON value is an array (`isinstance(v, list)`). -/
def JsonVal.isArr : JsonVal → Bool
  | .arr _ => true
  | _ => false

/-- Whether a JSON value is an object (`isinstance(v, dict)`). -/
def JsonVal.isObj : JsonVal → Bool
  | .obj _ => true
  | _ => false

/-- Whether a JSON value is a scalar (neither array nor object). -/
def JsonVal.isScalar (v : JsonVal) : Bool := !v.isArr && !v.isObj

/-- The fields of a JSON object (and `[]` for any other value). -/
def JsonVal.objFields : JsonVal → List (String × JsonVal)
  | .obj fields => fields
  | _ => []

/-- A pandas `DataFrame`, column-major: row labels, column names, and per
column the cell list (`none` is `NaN`). -/
structure Frame where
  index : List String
  columns : List String
  colData : List (List (Option JsonVal))

/-- Column names collected over a list of dicts, in order of first
appearance: the column resolution of `pd.DataFrame(list_of_dicts)`. -/
def collectKeys (dicts : List (List (String × JsonVal))) : List String :=
  dicts.foldl (fun acc d => acc ++ ((d.map Prod.fst).filter (fun k => k ∉ acc))) []

/-- `pd.DataFrame(list_of_dicts)`: one row per dict; the columns are the keys
in order of first appearance; a missing key is `NaN`; the index is the
default range index. -/
def dataFrameFromRecords (dicts : List (List (String × JsonVal))) : Frame :=
  let cols := collectKeys dicts
  { index := (List.range dicts.length).map (fun i => toString i),
    columns := cols,
    colData := cols.map (fun c => dicts.map (fun d => d.lookup c)) }

/-- `pd.DataFrame(list)` on a generic JSON list: when every element is a
dict, each dict becomes a row; otherwise the values form one unnamed
column. -/
def dataFrameFromList (elems : List JsonVal) : Frame :=
  if elems.all JsonVal.isObj then
    dataFrameFromRecords (elems.map JsonVal.objFields)
  else
    { index := (List.range elems.length).map (fun i => toString i),
      columns := ["0"],
      colData := [elems.map some] }

/-- `pd.DataFrame(dict)` on a dict of arrays: each key is a column and its
array is the column data (pandas requires equal lengths; the row count is
taken from the first column). -/
def dataFrameFromColumnsDict (fields : List (String × JsonVal)) : Frame :=
  let nrows := match fields.head? with
               | some (_, JsonVal.arr xs) => xs.length
               | _ => 0
  { index := (List.range nrows).map (fun i => toString i),
    columns := fields.map Prod.fst,
    colData := fields.map (fun kv =>
      match kv.2 with
      | JsonVal.arr xs => xs.map some
      | v => [some v]) }

/-- `pd.DataFrame.from_dict(data, orient="index")`: the outer keys become the
row index; the columns are the inner keys in order of first appearance. -/
def dataFrameFromIndexDict (fields : List (String × JsonVal)) : Frame :=
  let cols := collectKeys (fields.map (fun kv => kv.2.objFields))
  { index := fields.map Prod.fst,
    columns := cols,
    colData := cols.map (fun c => fields.map (fun kv => kv.2.objFields.lookup c)) }

/-- `pd.DataFrame([data])` on a flat dict: a single row whose columns are the
keys. -/
def dataFrameSingleRow (fields : List (String × JsonVal)) : Frame :=
  { index := ["0"],
    columns := fields.map Prod.fst,
    colData := fields.map (fun kv => [some kv.2]) }

/-- Outcome of `_read_json`: either the file is re-read with
`pd.read_json(path, orient=orient)` (auto-detection bypassed), or a frame is
built from the parsed value by auto-detection. -/
inductive ReadJsonOutcome
  | explicitOrient (orient : String)
  | frame (f : Frame)

/-- `DataConverter._read_json` from `backend/converters/data.py`
lines 273-319, after `json.loads` succeeded: a list with no orient option
becomes `pd.DataFrame(data)`; a dict with no orient option is auto-detected
on its first value (`next(iter(data.values()), None)`): an array first value
gives `pd.DataFrame(data)`, a dict first value gives
`pd.DataFrame.from_dict(data, orient="index")`, anything else (including an
empty dict) gives `pd.DataFrame([data])`; when the orient option is present
the file is read with `pd.read_json(path, orient=orient)` instead; any other
JSON value raises "JSON must be an object or array". -/
def read_json (data : JsonVal) (orient : Option String) : Except String ReadJsonOutcome :=
  match data with
  | JsonVal.arr elems =>
      match orient with
      | some o => Except.ok (ReadJsonOutcome.explicitOrient o)
      | none => Except.ok (ReadJsonOutcome.frame (dataFrameFromList elems))
  | JsonVal.obj fields =>
      match orient with
      | some o => Except.ok (ReadJsonOutcome.explicitOrient o)
      | none =>
          match fields.head? with
          | some (_, JsonVal.arr _) =>
              Except.ok (ReadJsonOutcome.frame (dataFrameFromColumnsDict fields))
          | some (_, JsonVal.obj _) =>
              Except.ok (ReadJsonOutcome.frame (dataFrameFromIndexDict fields))
          | _ => Except.ok (ReadJsonOutcome.frame (dataFrameSingleRow fields))
  | _ => Except.error "JSON must be an object or array"

/-- Python `k in data` on a parsed JSON object: key membership. -/
def containsKey (fields : List (String × JsonVal)) (k : String) : Bool :=
  (fields.map Prod.fst).contains k

/-- Outcome of the JSON-structure handling in the module layer's
`DataConverter.json_to_csv` / `json_to_excel`.  The `tableOrient` and
`splitOrient` constructors carry the pandas calls
`pd.DataFrame(data["data"], columns=data["columns"])` and
`pd.read_json(json_content, orient="split")`, whose frame construction is
not needed by any claim and is left abstract. -/
inductive ModuleJsonOutcome
  | frame (f : Frame)
  | tableOrient (dataVal columnsVal : JsonVal)
  | splitOrient

/-- The JSON-structure handling of the module layer's
`DataConverter.json_to_csv` (`converters.py` lines 1150-1171, duplicated in
`json_to_excel` lines 1416-1433), after `json.loads` succeeded: a list
becomes `pd.DataFrame(data)`; a dict with both `"data"` and `"columns"` keys
is treated as table orient, a dict with both `"columns"` and `"index"` keys
as split orient, and every other dict — whatever the shape of its values —
becomes `pd.DataFrame([data])`, a single row (the `try` never fails for a
dict, so the `except` branch is dead); other values raise
`InvalidInputError`.  No orientation option is consulted when reading:
`json_orient` is only used when writing JSON. -/
def json_to_csv_read (data : JsonVal) : Except String ModuleJsonOutcome :=
  match data with
  | JsonVal.arr elems => Except.ok (ModuleJsonOutcome.frame (dataFrameFromList elems))
  | JsonVal.obj fields =>
      if containsKey fields "data" && containsKey fields "columns" then
        Except.ok (ModuleJsonOutcome.tableOrient
          ((fields.lookup "data").getD JsonVal.null)
          ((fields.lookup "columns").getD JsonVal.null))
      else if containsKey fields "columns" && containsKey fields "index" then
        Except.ok ModuleJsonOutcome.splitOrient
      else
        Except.ok (ModuleJsonOutcome.frame (dataFrameSingleRow fields))
  | _ => Except.error "Unsupported JSON structure"

/-! ### Tabular transformations (`backend/converters/data.py`
`_apply_transformations`)

A dataframe is modelled row-major: per-column metadata (name and whether the
pandas dtype is `object`, i.e. a text column) and the rows.  Every row is
assumed to have one cell per column.
-/

/-- A cell of the table: `NaN`, a string, or a number. -/
inductive Cell
  | na
  | str (s : String)
  | num (n : Int)
deriving DecidableEq

/-- Whether a cell is `NaN`. -/
def Cell.isNa : Cell → Bool
  | .na => true
  | _ => false

/-- Metadata of one dataframe column: its name and whether its pandas dtype
is `object`. -/
structure DColumnMeta where
  name : String
  isObjectDtype : Bool
deriving DecidableEq

instance : Inhabited DColumnMeta := ⟨⟨"", false⟩⟩

/-- A dataframe, row-major. -/
structure DTable where
  headers : List DColumnMeta
  rows : List (List Cell)
deriving DecidableEq

/-- The column names of a table. -/
def DTable.names (t : DTable) : List String := t.headers.map DColumnMeta.name

/-- The transformation options read by `_apply_transformations`
(`backend/converters/data.py` lines 195-235).  `rename_columns` and
`columns` model `options.get(...)`: `none` is an absent key; per Python
truthiness an empty mapping or list is also skipped. -/
structure TransformOptions where
  drop_empty_rows : Bool
  drop_empty_columns : Bool
  strip_whitespace : Bool
  rename_columns : Option (List (String × String))
  columns : Option (List String)
deriving DecidableEq

/-- `df.dropna(how="all")`: drop the rows whose cells are all `NaN`. -/
def dropEmptyRowsStep (t : DTable) : DTable :=
  { t with rows := t.rows.filter (fun r => !(r.all Cell.isNa)) }

/-- The column positions that survive `df.dropna(axis=1, how="all")`: those
with at least one non-`NaN` cell. -/
def keptColumnIdx (t : DTable) : List Nat :=
  (List.range t.headers.length).filter
    (fun j => t.rows.any (fun r => !(Cell.isNa (r.getD j Cell.na))))

/-- `df.dropna(axis=1, how="all")`: drop the columns whose cells are all
`NaN`. -/
def dropEmptyColumnsStep (t : DTable) : DTable :=
  let keep := keptColumnIdx t
  { headers := keep.map (fun j => t.headers.getD j default),
    rows := t.rows.map (fun r => keep.map (fun j => r.getD j Cell.na)) }

/-- `df[col].str.strip()` on one cell of an `object`-dtype column: strings
are stripped of leading/trailing whitespace; non-string entries become
`NaN`. -/
def stripCell : Cell → Cell
  | Cell.str s => Cell.str (trimStr s)
  | _ => Cell.na

/-- The whitespace-stripping loop of `_apply_transformations`
(`backend/converters/data.py` lines 219-221): in every column of dtype
`object`, strip each cell. -/
def stripWhitespaceStep (t : DTable) : DTable :=
  { t with rows := t.rows.map (fun r =>
      (r.zip t.headers).map (fun ch =>
        if ch.2.isObjectDtype then stripCell ch.1 else ch.1)) }

/-- `df.rename(columns=mapping)`: rename the columns that appear in the
mapping, leaving the rest unchanged. -/
def renameStep (mapping : List (String × String)) (t : DTable) : DTable :=
  { t with headers := t.headers.map (fun h =>
      { h with name := (mapping.lookup h.name).getD h.name }) }

/-- Index of the first column with the given name (length of the header list
when absent). -/
def nameIdx (c : String) : List DColumnMeta → Nat
  | [] => 0
  | h :: rest => if h.name = c then 0 else nameIdx c rest + 1

/-- `df[available_cols]`: project (and reorder) onto the named columns, each
resolved to its first occurrence. -/
def projectColumns (t : DTable) (available : List String) : DTable :=
  { headers := available.map (fun c => t.headers.getD (nameIdx c t.headers) default),
    rows := t.rows.map (fun r => available.map (fun c => r.getD (nameIdx c t.headers) Cell.na)) }

/-- The column-selection block of `_apply_transformations`
(`backend/converters/data.py` lines 229-233): when a non-empty selection
list is supplied, keep `available_cols`, the requested columns present in
the table; when none of them is present the table is left unchanged.
Requested columns absent from the table are silently dropped from the
selection and never raise. -/
def selectColumnsStep (selection : Option (List String)) (t : DTable) : DTable :=
  match selection with
  | some sel =>
      if sel ≠ [] then
        let available := sel.filter (fun c => c ∈ t.names)
        if available ≠ [] then projectColumns t available else t
      else t
  | none => t

/-- `DataConverter._apply_transformations` from `backend/converters/data.py`
lines 195-235, transcribed with the source's sequential rebinding of `df`:
drop fully-empty rows, then drop fully-empty columns, then strip whitespace
from text columns, then rename columns, then select columns.  Each block is
guarded exactly as in the source (`options.get(..., False)` flags; per
Python truthiness an empty `rename_columns` mapping or `columns` list is
skipped). -/
def apply_transformations (t : DTable) (options : TransformOptions) : DTable :=
  let df := t
  let df := if options.drop_empty_rows then
      { df with rows := df.rows.filter (fun r => !(r.all Cell.isNa)) }
    else df
  let df := if options.drop_empty_columns then
      let keep := keptColumnIdx df
      { headers := keep.map (fun j => df.headers.getD j default),
        rows := df.rows.map (fun r => keep.map (fun j => r.getD j Cell.na)) }
    else df
  let df := if options.strip_whitespace then
      { df with rows := df.rows.map (fun r =>
          (r.zip df.headers).map (fun ch =>
            if ch.2.isObjectDtype then stripCell ch.1 else ch.1)) }
    else df
  let df := match options.rename_columns with
    | some mapping =>
        if mapping ≠ [] then
          { df with headers := df.headers.map (fun h =>
              { h with name := (mapping.lookup h.name).getD h.name }) }
        else df
    | none => df
  let df := match options.columns with
    | some sel =>
        if sel ≠ [] then
          let available := sel.filter (fun c => c ∈ df.names)
          if available ≠ [] then projectColumns df available else df
        else df
    | none => df
  df

/-! ### CSV reading with encoding retry (`backend/converters/data.py`
`_read_csv`)

The raw file is a list of byte values.  UTF-8 decoding is implemented as the
standard validating decoder (rejecting stray continuation bytes, overlong
forms, surrogates and values beyond U+10FFFF); latin-1 decoding maps every
byte to the code point of the same value and never fails.  The pandas CSV
parser itself is modelled as a total line/field splitter.
-/

/-- Whether a byte is a UTF-8 continuation byte. -/
def isContByte (b : Nat) : Bool := 0x80 ≤ b && b ≤ 0xBF

/-- A validating UTF-8 decoder on byte values; `none` models
`UnicodeDecodeError`. -/
def decodeUtf8? : List Nat → Option (List Char)
  | [] => some []
  | b1 :: rest =>
    if b1 < 0x80 then
      (decodeUtf8? rest).map (fun cs => Char.ofNat b1 :: cs)
    else if 0xC2 ≤ b1 && b1 ≤ 0xDF then
      match rest with
      | b2 :: rest2 =>
          if isContByte b2 then
            (decodeUtf8? rest2).map (fun cs =>
              Char.ofNat ((b1 - 0xC0) * 64 + (b2 - 0x80)) :: cs)
          else none
      | [] => none
    else if 0xE0 ≤ b1 && b1 ≤ 0xEF then
      match rest with
      | b2 :: b3 :: rest3 =>
          let b2ok :=
            if b1 = 0xE0 then 0xA0 ≤ b2 && b2 ≤ 0xBF
            else if b1 = 0xED then 0x80 ≤ b2 && b2 ≤ 0x9F
            else isContByte b2
          if b2ok && isContByte b3 then
            (decodeUtf8? rest3).map (fun cs =>
              Char.ofNat ((b1 - 0xE0) * 4096 + (b2 - 0x80) * 64 + (b3 - 0x80)) :: cs)
          else none
      | _ => none
    else if 0xF0 ≤ b1 && b1 ≤ 0xF4 then
      match rest with
      | b2 :: b3 :: b4 :: rest4 =>
          let b2ok :=
            if b1 = 0xF0 then 0x90 ≤ b2 && b2 ≤ 0xBF
            else if b1 = 0xF4 then 0x80 ≤ b2 && b2 ≤ 0x8F
            else isContByte b2
          if b2ok && isContByte b3 && isContByte b4 then
            (decodeUtf8? rest4).map (fun cs =>
              Char.ofNat ((b1 - 0xF0) * 262144 + (b2 - 0x80) * 4096
                + (b3 - 0x80) * 64 + (b4 - 0x80)) :: cs)
          else none
      | _ => none
    else none

/-- Latin-1 decoding: every byte maps to the code point of the same value;
it never fails. -/
def decodeLatin1 (bytes : List Nat) : List Char := bytes.map Char.ofNat

/-- The encodings relevant to `_read_csv`: the declared default `utf-8` and
the `latin-1` fallback. -/
inductive CsvEncoding
  | utf8
  | latin1
deriving DecidableEq

/-- Errors of the modelled `pd.read_csv`. -/
inductive CsvReadError
  | unicodeDecode
deriving DecidableEq

/-- A parsed CSV: the optional header row and the data rows. -/
structure CsvFrame where
  header : Option (List String)
  dataRows : List (List String)
deriving DecidableEq

/-- Split a character list on a separator character. -/
def splitListOn (sep : Char) : List Char → List (List Char)
  | [] => [[]]
  | x :: xs =>
      match splitListOn sep xs with
      | [] => if x = sep then [[], []] else [[x]]
      | y :: ys => if x = sep then [] :: y :: ys else (x :: y) :: ys

/-- The CSV parse applied by `pd.read_csv` after decoding, modelled as a
total splitter: non-empty lines split on the delimiter; with `header=0` the
first row is the header. -/
def parse_csv (chars : List Char) (delimiter : Char) (headerRow : Bool) : CsvFrame :=
  let lines := (splitListOn '\n' chars).filter (fun l => l ≠ [])
  let rows := lines.map (fun ln => (splitListOn delimiter ln).map (fun f => String.mk f))
  if headerRow then { header := rows.head?, dataRows := rows.tail }
  else { header := none, dataRows := rows }

/-- One `pd.read_csv(path, encoding=..., ...)` call: decode the bytes under
the encoding (raising `UnicodeDecodeError` on failure), then parse. -/
def pd_read_csv (bytes : List Nat) (encoding : CsvEncoding) (delimiter : Char)
    (headerRow : Bool) : Except CsvReadError CsvFrame :=
  match (match encoding with
         | CsvEncoding.utf8 => decodeUtf8? bytes
         | CsvEncoding.latin1 => some (decodeLatin1 bytes)) with
  | none => Except.error CsvReadError.unicodeDecode
  | some chars => Except.ok (parse_csv chars delimiter headerRow)

/-- `DataConverter._read_csv` from `backend/converters/data.py`
lines 237-271: read with the declared encoding; on `UnicodeDecodeError`
retry exactly once with `latin-1`. -/
def read_csv (bytes : List Nat) (encoding : CsvEncoding) (delimiter : Char)
    (headerRow : Bool) : Except CsvReadError CsvFrame :=
  match pd_read_csv bytes encoding delimiter headerRow with
  | Except.error CsvReadError.unicodeDecode =>
      pd_read_csv bytes CsvEncoding.latin1 delimiter headerRow
  | r => r

/-! ### Image conversion options (`converters.py` `ImageConversionOptions`)

The dataclass's `__post_init__` validation is modelled as a constructor
returning `Except`: `Except.error` models the raised `ValueError`.  The
`scale` float is represented as a rational.
-/

/-- `ImageFormat` from `converters.py` lines 225-233. -/
inductive ImageFormat
  | png
  | jpg
  | jpeg
  | webp
  | bmp
  | gif
deriving DecidableEq

/-- `ImageFormat.supports_quality` (`converters.py` lines 261-263): only
JPG/JPEG/WEBP take a quality setting. -/
def ImageFormat.supports_quality (f : ImageFormat) : Bool :=
  f ∈ [ImageFormat.jpg, ImageFormat.jpeg, ImageFormat.webp]

/-- `ImageConversionOptions` from `converters.py` lines 273-293. -/
structure ImageConversionOptions where
  quality : Int
  width : Option Int
  height : Option Int
  scale : Option ℚ
  preserveAspect : Bool
  optimize : Bool
deriving DecidableEq

/-- Construction of `ImageConversionOptions` including its `__post_init__`
validation (`converters.py` lines 284-293): quality outside `[1, 100]`, a
non-positive scale, width or height each raise a `ValueError` whose message
is returned in the error case. -/
def mk_image_conversion_options (quality : Int) (width height : Option Int)
    (scale : Option ℚ) (preserveAspect optimize : Bool) :
    Except String ImageConversionOptions :=
  if quality < 1 ∨ quality > 100 then
    Except.error "Quality must be between 1 and 100"
  else if (match scale with | some v => decide (v ≤ 0) | none => false) then
    Except.error "Scale must be positive"
  else if (match width with | some v => decide (v ≤ 0) | none => false) then
    Except.error "Width must be positive"
  else if (match height with | some v => decide (v ≤ 0) | none => false) then
    Except.error "Height must be positive"
  else
    Except.ok ⟨quality, width, height, scale, preserveAspect, optimize⟩

/-- The quality entry of `save_kwargs` in `ImageConverter.convert`
(`converters.py` lines 424-428): for formats that support quality the
options' quality value is passed through unchanged; otherwise no quality is
passed. -/
def save_kwargs_quality (fmt : ImageFormat) (options : ImageConversionOptions) : Option Int :=
  if fmt.supports_quality then some options.quality else none

/-- `ImageConverter._validate_quality` from `backend/converters/image.py`
lines 356-372 on an integer input: clamp into
`[MIN_QUALITY, MAX_QUALITY] = [1, 100]` (a non-integer input would instead
yield the default 85). -/
def validate_quality (quality : Int) : Int := max 1 (min 100 quality)

/-! ### Batch conversion and statistics (`converters.py`)

`ConversionResult.metadata` (an arbitrary dict) is omitted; the
`duration_seconds` float is represented as a rational.
-/

/-- `ConversionStatus` from `converters.py` lines 54-61. -/
inductive ConversionStatus
  | success
  | partialSuccess
  | failure
  | skipped
deriving DecidableEq

/-- `ConversionStatistics` from `converters.py` lines 63-73. -/
structure ConversionStatistics where
  files_processed : Nat
  files_succeeded : Nat
  files_failed : Nat
  files_skipped : Nat
  total_bytes_read : Nat
  total_bytes_written : Nat
  duration_seconds : ℚ
deriving DecidableEq

/-- The all-zero default `ConversionStatistics()`. -/
def emptyStatistics : ConversionStatistics := ⟨0, 0, 0, 0, 0, 0, 0⟩

/-- `ConversionResult` from `converters.py` lines 83-103 (metadata
omitted). -/
structure ConversionResult where
  status : ConversionStatus
  input_path : String
  output_path : Option String
  error_message : Option String
  statistics : ConversionStatistics
deriving DecidableEq

/-- `ConversionResult.is_success` (`converters.py` lines 94-97): `SUCCESS`
and `PARTIAL_SUCCESS` both count as success. -/
def ConversionResult.is_success (r : ConversionResult) : Bool :=
  r.status = ConversionStatus.success ∨ r.status = ConversionStatus.partialSuccess

/-- `BatchConversionResult` from `converters.py` lines 106-147. -/
structure BatchConversionResult where
  results : List ConversionResult
  statistics : ConversionStatistics
deriving DecidableEq

/-- The default `BatchConversionResult()`. -/
def emptyBatch : BatchConversionResult := ⟨[], emptyStatistics⟩

/-- `BatchConversionResult.status` (`converters.py` lines 113-124): skipped
when empty; success when every result succeeded; partial success when some
but not all succeeded; failure otherwise. -/
def batchStatus (b : BatchConversionResult) : ConversionStatus :=
  if b.results = [] then ConversionStatus.skipped
  else
    let successes := b.results.countP (fun r => r.is_success)
    if successes = b.results.length then ConversionStatus.success
    else if successes > 0 then ConversionStatus.partialSuccess
    else ConversionStatus.failure

/-- `BatchConversionResult._update_statistics` (`converters.py`
lines 136-147): processed always increments; succeeded increments for
successful results; failed increments for `FAILURE`; skipped increments for
`SKIPPED`; the byte and duration totals accumulate. -/
def update_statistics (stats : ConversionStatistics) (r : ConversionResult) :
    ConversionStatistics :=
  { files_processed := stats.files_processed + 1,
    files_succeeded := stats.files_succeeded + (if r.is_success then 1 else 0),
    files_failed := stats.files_failed + (if r.status = ConversionStatus.failure then 1 else 0),
    files_skipped := stats.files_skipped + (if r.status = ConversionStatus.skipped then 1 else 0),
    total_bytes_read := stats.total_bytes_read + r.statistics.total_bytes_read,
    total_bytes_written := stats.total_bytes_written + r.statistics.total_bytes_written,
    duration_seconds := stats.duration_seconds + r.statistics.duration_seconds }

/-- `BatchConversionResult.add_result` (`converters.py` lines 131-134):
append the result and fold it into the statistics. -/
def add_result (b : BatchConversionResult) (r : ConversionResult) : BatchConversionResult :=
  { results := b.results ++ [r],
    statistics := update_statistics b.statistics r }

/-- `input_path.stem`: the file name without its final suffix. -/
def pathStem (p : String) : String :=
  let nameChars := (p.data.reverse.takeWhile (fun c => c ≠ '/')).reverse
  if '.' ∈ nameChars then
    ⟨((nameChars.reverse.dropWhile (fun c => c ≠ '.')).drop 1).reverse⟩
  else ⟨nameChars⟩

/-- `ImageConverter.batch_convert` from `converters.py` lines 513-563: on an
empty input list return the fresh `BatchConversionResult`; otherwise iterate
over every input in order, derive the output path from the input stem and
the target extension, call single-file `convert` (a total function returning
a `ConversionResult`: `convert` catches conversion failures and returns a
`FAILURE` result instead of raising), and `add_result` each result.  No
per-file outcome interrupts the iteration. -/
def batch_convert (convertFn : String → String → ConversionResult)
    (input_paths : List String) (output_dir : String) (output_ext : String) :
    BatchConversionResult :=
  if input_paths = [] then emptyBatch
  else
    input_paths.foldl
      (fun acc p => add_result acc (convertFn p (output_dir ++ "/" ++ pathStem p ++ output_ext)))
      emptyBatch

/-! ### Concrete inputs used by witnesses -/

/-- A page whose extracted text is 52428801 characters of `a`: one byte per
character in UTF-8, so just over the 50MB output-text cap. -/
def oversizedPage : String := String.mk (List.replicate 52428801 'a')

/-- A successful single-file conversion result over empty statistics. -/
def sampleSuccessResult : ConversionResult :=
  ⟨ConversionStatus.success, "a.png", some "out/a.jpg", none, emptyStatistics⟩

/-- A failed single-file conversion result over empty statistics. -/
def sampleFailureResult : ConversionResult :=
  ⟨ConversionStatus.failure, "b.png", none, some "broken file", emptyStatistics⟩

/-! ## Helper lemmas -/

theorem charOfNat_toNat {n : Nat} (h : n < 55296) : (Char.ofNat n).toNat = n := by
  simp [Char.ofNat, Char.toNat, Nat.isValidChar, h, Char.ofNatAux, UInt32.toNat,
    BitVec.toNat_ofNatLt]

theorem charLower_idem (c : Char) : charLower (charLower c) = charLower c := by
  unfold charLower
  by_cases h : 65 ≤ c.toNat ∧ c.toNat ≤ 90
  · rw [if_pos h]
    have ht : (Char.ofNat (c.toNat + 32)).toNat = c.toNat + 32 := charOfNat_toNat (by omega)
    rw [if_neg (by omega)]
  · rw [if_neg h, if_neg h]

theorem charLower_eq_dot_iff (c : Char) : charLower c = '.' ↔ c = '.' := by
  unfold charLower
  by_cases h : 65 ≤ c.toNat ∧ c.toNat ≤ 90
  · rw [if_pos h]
    constructor
    · intro he
      have hx : (Char.ofNat (c.toNat + 32)).toNat = '.'.toNat := by rw [he]
      rw [charOfNat_toNat (by omega)] at hx
      have hdot : ('.' : Char).toNat = 46 := rfl
      omega
    · intro he
      subst he
      simp at h
  · rw [if_neg h]

theorem dropWhile_dropWhile (p : α → Bool) (l : List α) :
    (l.dropWhile p).dropWhile p = l.dropWhile p := by
  induction l with
  | nil => rfl
  | cons x xs ih =>
      by_cases h : p x
      · simp [List.dropWhile_cons, h, ih]
      · simp [List.dropWhile_cons, h]

theorem normalizeFormat_idem (s : String) : normalizeFormat (normalizeFormat s) = normalizeFormat s := by
  unfold normalizeFormat lstripDots strLower
  apply congrArg String.mk
  show (((s.data.map charLower).dropWhile (· = '.')).map charLower).dropWhile (· = '.')
      = (s.data.map charLower).dropWhile (· = '.')
  have h1 : ((s.data.map charLower).dropWhile (· = '.')).map charLower
      = (s.data.map charLower).dropWhile (· = '.') := by
    rw [List.dropWhile_map, List.map_map]
    apply List.map_congr_left
    intro a _
    exact charLower_idem a
  rw [h1, dropWhile_dropWhile]

/-! ## C1: format compatibility and same-format rejection -/

/-- C1 (counterexample): for the registered format `png` with `g = f = png`,
the claim predicts a rejection with `InvalidArgument` carrying the message
"source and target formats are the same".  Instead, the backend dispatcher
rejects the pair with the same generic incompatibility detail it uses for
any unsupported pairing ("Cannot convert png to png"), and the module-layer
factory does not reject the pair at all: it routes it straight into the
image converter, which performs no same-format check. -/
theorem c1_counterexample :
    backendConvertDispatch "png" "png" = DispatchOutcome.reject "Cannot convert png to png"
    ∧ factoryConvertRoute ".png" ".png" = FactoryRoute.imageConvert := by
  constructor
  · decide
  · decide

/-- C1 (amended): the backend dispatcher accepts a pair exactly when the
normalised output format is in the input format's compatibility list; no
registered format lists itself among its compatible outputs, so `g = f` is
rejected — but by the same generic unsupported-pairing rejection, not by a
dedicated same-format error; the "Source and target formats are the same"
error is raised only by the module-layer data converter's routing, exactly
when source and target resolve to the same `DataFormat`. -/
theorem c1_format_compatibility :
    (∀ f g : String, backendConvertDispatch f g = DispatchOutcome.accept ↔
        normalizeFormat g ∈ get_compatible_formats f)
    ∧ (∀ f ∈ registeredFormats, f ∉ get_compatible_formats f)
    ∧ (∀ i o : DataFormat,
        dataConverterRoute i o = DataRoute.sameFormatError i.value ↔ i = o) := by
  refine ⟨?_, ?_, ?_⟩
  · intro f g
    have hv : validate_conversion f (normalizeFormat g)
        = (get_compatible_formats f).contains (normalizeFormat g) := by
      unfold validate_conversion
      rw [normalizeFormat_idem]
    show (if validate_conversion f (normalizeFormat g) then DispatchOutcome.accept
          else DispatchOutcome.reject _) = DispatchOutcome.accept ↔ _
    rw [hv]
    by_cases h : (get_compatible_formats f).contains (normalizeFormat g)
    · rw [if_pos h]
      simp only [true_iff]
      exact List.elem_iff.mp h
    · rw [if_neg h]
      constructor
      · intro hc
        exact absurd hc (by simp)
      · intro hm
        exact absurd (List.elem_iff.mpr hm) h
  · decide
  · intro i o
    cases i <;> cases o <;> decide

/-- C1 (witness): the amended statement evaluated at concrete formats:
`png → jpg` is accepted because `jpg` is compatible with `png`; `png` is not
self-compatible; and the data route for `csv → csv` is exactly the
same-format error. -/
theorem c1_format_compatibility_witness :
    (backendConvertDispatch "png" "jpg" = DispatchOutcome.accept ↔
        normalizeFormat "jpg" ∈ get_compatible_formats "png")
    ∧ "png" ∉ get_compatible_formats "png"
    ∧ (dataConverterRoute DataFormat.csv DataFormat.csv
        = DataRoute.sameFormatError DataFormat.csv.value ↔ DataFormat.csv = DataFormat.csv) :=
  ⟨c1_format_compatibility.1 "png" "jpg",
   c1_format_compatibility.2.1 "png" (by decide),
   c1_format_compatibility.2.2 DataFormat.csv DataFormat.csv⟩

/-! ## C2: PDF page-range interpretation -/

theorem mem_pyRange {a b p : Int} : p ∈ pyRange a b ↔ a ≤ p ∧ p < b := by
  unfold pyRange
  simp only [List.mem_map, List.mem_range]
  constructor
  · rintro ⟨i, hi, rfl⟩
    omega
  · intro h
    exact ⟨(p - a).toNat, by omega, by omega⟩

/-- C2 (counterexample): on a 3-page PDF with page texts `A`, `B`, `C`, the
module-layer `pdf_to_text` (`converters.py`, one of the two cited
implementations) treats `pageRange = (0, 2)` with an inclusive end bound: its
output parts carry markers for pages 1, 2 and 3, so the output text does
contain a marker for page 3, contrary to the claimed half-open
interpretation. -/
theorem c2_counterexample :
    modulePdfTextParts ["A", "B", "C"] (some (0, 2))
      = ["--- Page 1 ---\nA\n", "--- Page 2 ---\nB\n", "--- Page 3 ---\nC\n"]
    ∧ "--- Page 3 ---\nC\n" ∈ modulePdfTextParts ["A", "B", "C"] (some (0, 2)) := by
  constructor
  · decide
  · decide

/-- C2 (amended): the backend `_convert_pdf_to_text` interprets
`(start, end)` as the half-open interval `[max 0 start, min pageCount end)`,
and on a 3-page PDF with non-empty page texts `pageRange = (0, 2)` yields
exactly the markers for pages 1 and 2; the module-layer `pdf_to_text`
instead processes the half-open range
`[min start (pageCount - 1), min (end + 1) pageCount)`, treating the end
bound inclusively, so the same request there also emits the page 3 marker. -/
theorem c2_page_range :
    (∀ (s e : Int) (total : Nat) (p : Int),
        p ∈ backendSelectedPages (some (s, e)) total ↔
          max 0 s ≤ p ∧ p < min (total : Int) e)
    ∧ (∀ a b c : String, a ≠ "" → b ≠ "" →
        backendTextParts [a, b, c] (some (0, 2))
          = [pageMarker 1, a, "\n\n", pageMarker 2, b, "\n\n"])
    ∧ (∀ (s e : Int) (total : Nat) (p : Int),
        p ∈ moduleSelectedPages (some (s, e)) total ↔
          min s ((total : Int) - 1) ≤ p ∧ p < min (e + 1) (total : Int)) := by
  refine ⟨?_, ?_, ?_⟩
  · intro s e total p
    unfold backendSelectedPages
    exact mem_pyRange
  · intro a b c ha hb
    have hsel : backendSelectedPages (some (0, 2)) 3 = [0, 1] := by decide
    show (backendSelectedPages (some (0, 2)) ([a, b, c] : PdfDocument).length).foldl _ [] = _
    rw [show ([a, b, c] : PdfDocument).length = 3 from rfl, hsel]
    simp [ha, hb]
  · intro s e total p
    unfold moduleSelectedPages
    exact mem_pyRange

/-- C2 (witness): the amended statement evaluated at `pageRange = (0, 2)`
over a 3-page PDF with texts `A`, `B`, `C`. -/
theorem c2_page_range_witness :
    (1 ∈ backendSelectedPages (some (0, 2)) 3 ↔
        max 0 0 ≤ (1 : Int) ∧ (1 : Int) < min ((3 : Nat) : Int) 2)
    ∧ backendTextParts ["A", "B", "C"] (some (0, 2))
        = [pageMarker 1, "A", "\n\n", pageMarker 2, "B", "\n\n"]
    ∧ (2 ∈ moduleSelectedPages (some (0, 2)) 3 ↔
        min 0 (((3 : Nat) : Int) - 1) ≤ (2 : Int) ∧ (2 : Int) < min (2 + 1) ((3 : Nat) : Int)) :=
  ⟨c2_page_range.1 0 2 3 1,
   c2_page_range.2.1 "A" "B" "C" (by decide) (by decide),
   c2_page_range.2.2 0 2 3 2⟩

/-! ## C3: PDF extraction resource limits -/

theorem utf8ByteSize_append (a b : String) :
    (a ++ b).utf8ByteSize = a.utf8ByteSize + b.utf8ByteSize := by
  cases a with
  | mk da =>
      cases b with
      | mk db =>
          show (String.mk (da ++ db)).utf8ByteSize = _
          simp

theorem utf8ByteSize_foldl_append (l : List String) (s : String) :
    (l.foldl (fun r t => r ++ t) s).utf8ByteSize
      = s.utf8ByteSize + (l.map String.utf8ByteSize).sum := by
  induction l generalizing s with
  | nil => simp
  | cons x xs ih =>
      show ((xs.foldl (fun r t => r ++ t) (s ++ x))).utf8ByteSize = _
      rw [ih, utf8ByteSize_append]
      simp
      omega

theorem utf8ByteSize_join (l : List String) :
    (String.join l).utf8ByteSize = (l.map String.utf8ByteSize).sum := by
  show ((l.foldl (fun r t => r ++ t) "")).utf8ByteSize = _
  rw [utf8ByteSize_foldl_append]
  rw [show ("" : String).utf8ByteSize = 0 from by decide]
  omega

theorem utf8Len_replicate (n : Nat) (c : Char) :
    String.utf8Len (List.replicate n c) = n * c.utf8Size := by
  induction n with
  | zero => simp
  | succ m ih =>
      rw [List.replicate_succ]
      simp [ih]
      ring

/-- C3: on the backend `_convert_pdf_to_text`, a PDF whose page count
exceeds `MAX_PDF_PAGES = 500` fails with the page-limit `ResourceLimit`
error (the check precedes the extraction loop), and a PDF within the page
limit whose extracted text exceeds `MAX_TEXT_SIZE_MB = 50` megabytes fails
with the text-size `ResourceLimit` error (the check precedes the file
write); in both cases the function returns `Except.error`, so no output
artifact is produced. -/
theorem c3_resource_limits :
    (∀ (pdf : PdfDocument) (pr : Option (Int × Int)), pdf.length > MAX_PDF_PAGES →
        convert_pdf_to_text pdf pr = Except.error (DocumentError.tooManyPages pdf.length))
    ∧ (∀ (pdf : PdfDocument) (pr : Option (Int × Int)), pdf.length ≤ MAX_PDF_PAGES →
        (backendFullText pdf pr).utf8ByteSize > MAX_TEXT_SIZE_MB * 1024 * 1024 →
        convert_pdf_to_text pdf pr
          = Except.error (DocumentError.textTooLarge (backendFullText pdf pr).utf8ByteSize)) := by
  constructor
  · intro pdf pr h
    unfold convert_pdf_to_text
    rw [if_pos h]
  · intro pdf pr hpages hsize
    unfold convert_pdf_to_text
    rw [if_neg (by omega), if_pos hsize]

theorem backendTextParts_singleton (t : String) (ht : t ≠ "") :
    backendTextParts [t] none = [pageMarker 1, t, "\n\n"] := by
  unfold backendTextParts
  rw [show ([t] : PdfDocument).length = 1 from rfl]
  rw [show backendSelectedPages none 1 = [0] from by decide]
  show (if ([t] : PdfDocument).getD ((0 : Int)).toNat "" ≠ "" then
        ([] : List String) ++ [pageMarker ((0 : Int) + 1), ([t] : PdfDocument).getD ((0 : Int)).toNat "", "\n\n"]
      else []) = [pageMarker 1, t, "\n\n"]
  rw [show ([t] : PdfDocument).getD ((0 : Int)).toNat "" = t from rfl]
  rw [if_pos ht]
  rw [show ((0 : Int) + 1) = 1 from by decide]
  rw [List.nil_append]

/-- C3 (witness): a 501-page PDF fails with the page limit; a 1-page PDF
whose page text is 52428801 bytes of UTF-8 (just over 50MB including the
page marker and separator) fails with the text-size limit. -/
theorem c3_resource_limits_witness :
    convert_pdf_to_text (List.replicate 501 "x") none
        = Except.error (DocumentError.tooManyPages 501)
    ∧ convert_pdf_to_text [oversizedPage] none
        = Except.error (DocumentError.textTooLarge 52428818) := by
  have hne : oversizedPage ≠ "" := by
    intro h
    have hd : List.replicate 52428801 'a' = ([] : List Char) := congrArg String.data h
    have h0 : (52428801 : Nat) = 0 := (List.replicate_eq_nil_iff 'a').mp hd
    omega
  have hparts : backendTextParts [oversizedPage] none = [pageMarker 1, oversizedPage, "\n\n"] :=
    backendTextParts_singleton oversizedPage hne
  have hpage : oversizedPage.utf8ByteSize = 52428801 := by
    show (String.mk (List.replicate 52428801 'a')).utf8ByteSize = 52428801
    rw [String.utf8ByteSize_mk, utf8Len_replicate]
    rw [show Char.utf8Size 'a' = 1 from rfl]
  have hsize : (backendFullText [oversizedPage] none).utf8ByteSize = 52428818 := by
    unfold backendFullText
    rw [hparts, utf8ByteSize_join]
    rw [show List.map String.utf8ByteSize [pageMarker 1, oversizedPage, "\n\n"]
        = [(pageMarker 1).utf8ByteSize, oversizedPage.utf8ByteSize,
           ("\n\n" : String).utf8ByteSize]
      from rfl]
    rw [hpage]
    rw [show (pageMarker 1).utf8ByteSize = 15 from by decide]
    rw [show ("\n\n" : String).utf8ByteSize = 2 from by decide]
    decide
  constructor
  · have h := c3_resource_limits.1 (List.replicate 501 "x") none
      (by rw [List.length_replicate]; decide)
    rw [List.length_replicate] at h
    exact h
  · have h := c3_resource_limits.2 [oversizedPage] none (by decide) (by rw [hsize]; decide)
    rw [hsize] at h
    exact h

/-! ## C4: transparency flattening -/

theorem blendChannel_zero (bg src : Nat) : blendChannel bg src 0 = bg := by
  unfold blendChannel
  omega

/-- C4: converting a 4-channel (RGBA) image to JPEG routes it through
`_handle_transparency`: at any coordinate holding a fully transparent pixel
the output pixel is exactly the configured background colour (default white),
opaque; converting the same image to WEBP applies no transparency flattening
(`webp` is not in `NON_TRANSPARENT_FORMATS`) and the image, alpha channel
included, is passed to the encoder unchanged. -/
theorem c4_transparency :
    (∀ (px : List Pixel) (ht : Bool) (options : BackendImageOptions) (i : Nat) (p : Pixel),
        px[i]? = some p → p.a = 0 →
        (imageConvertPixels "jpg" ⟨PilMode.RGBA, px, ht⟩ options).pixels[i]?
          = some ⟨(options.background_color.getD ⟨255, 255, 255⟩).r,
                  (options.background_color.getD ⟨255, 255, 255⟩).g,
                  (options.background_color.getD ⟨255, 255, 255⟩).b, 255⟩)
    ∧ (∀ (px : List Pixel) (ht : Bool) (options : BackendImageOptions),
        imageConvertPixels "webp" ⟨PilMode.RGBA, px, ht⟩ options
          = ⟨PilMode.RGBA, px, ht⟩) := by
  constructor
  · intro px ht options i p hp ha
    show (px.map (pasteOntoBackground (options.background_color.getD ⟨255, 255, 255⟩)))[i]?
        = some _
    rw [List.getElem?_map, hp]
    show some _ = some _
    unfold pasteOntoBackground
    rw [ha, blendChannel_zero, blendChannel_zero, blendChannel_zero]
  · intro px ht options
    rfl

/-- C4 (witness): a one-pixel RGBA image whose pixel is fully transparent,
converted with default options (no background colour configured): the JPEG
path yields the white opaque pixel, the WEBP path returns the image
unchanged. -/
theorem c4_transparency_witness :
    (imageConvertPixels "jpg" ⟨PilMode.RGBA, [⟨10, 20, 30, 0⟩], false⟩ ⟨none⟩).pixels[0]?
        = some ⟨(((⟨none⟩ : BackendImageOptions).background_color.getD ⟨255, 255, 255⟩)).r,
                (((⟨none⟩ : BackendImageOptions).background_color.getD ⟨255, 255, 255⟩)).g,
                (((⟨none⟩ : BackendImageOptions).background_color.getD ⟨255, 255, 255⟩)).b, 255⟩
    ∧ imageConvertPixels "webp" ⟨PilMode.RGBA, [⟨10, 20, 30, 0⟩], false⟩ ⟨none⟩
        = ⟨PilMode.RGBA, [⟨10, 20, 30, 0⟩], false⟩ :=
  ⟨c4_transparency.1 [⟨10, 20, 30, 0⟩] false ⟨none⟩ 0 ⟨10, 20, 30, 0⟩ (by decide) (by decide),
   c4_transparency.2 [⟨10, 20, 30, 0⟩] false ⟨none⟩⟩

/-! ## C5: JSON structure auto-detection -/

/-- C5 (counterexample): the claim's cited implementation
`DataConverter.json_to_csv` does not auto-detect: the object of arrays
`[("a", [1, 2])]` has no `data`/`columns`/`index` keys, so it is read as
`pd.DataFrame([data])` — a single row whose one cell holds the whole array
(1 row, whereas the claimed columns orientation has one row per array
element, here 2); likewise the object of objects `[("r1", [("x", 1)])]`
becomes a single row indexed `0`, not rows indexed by the outer keys. -/
theorem c5_counterexample :
    json_to_csv_read (JsonVal.obj [("a", JsonVal.arr [JsonVal.num 1, JsonVal.num 2])])
        = Except.ok (ModuleJsonOutcome.frame
            (dataFrameSingleRow [("a", JsonVal.arr [JsonVal.num 1, JsonVal.num 2])]))
    ∧ (dataFrameSingleRow [("a", JsonVal.arr [JsonVal.num 1, JsonVal.num 2])]).index.length = 1
    ∧ (dataFrameFromColumnsDict [("a", JsonVal.arr [JsonVal.num 1, JsonVal.num 2])]).index.length = 2
    ∧ json_to_csv_read (JsonVal.obj [("r1", JsonVal.obj [("x", JsonVal.num 1)])])
        = Except.ok (ModuleJsonOutcome.frame
            (dataFrameSingleRow [("r1", JsonVal.obj [("x", JsonVal.num 1)])]))
    ∧ (dataFrameSingleRow [("r1", JsonVal.obj [("x", JsonVal.num 1)])]).index = ["0"] :=
  ⟨rfl, rfl, rfl, rfl, rfl⟩

/-- C5 (amended): the claimed auto-detection is the backend `_read_json`:
with no orientation option, a JSON array of objects yields one row per
object; a non-empty object whose values are arrays yields one column per
key; a non-empty object whose values are objects yields rows indexed by the
outer keys; a flat object (all values scalar, or no values) yields a single
row; and an explicit orientation option bypasses the auto-detection
entirely (the file is re-read with `pd.read_json(path, orient=orient)`).
The module layer's `json_to_csv` / `json_to_excel` instead only
special-cases dicts carrying `data`+`columns` keys (table orient) or
`columns`+`index` keys (split orient); every other dict — object of arrays
and object of objects included — is read as `pd.DataFrame([data])`, a
single row, and no orientation option is consulted when reading. -/
theorem c5_json_autodetect :
    (∀ elems : List JsonVal, (∀ e ∈ elems, e.isObj = true) →
        read_json (JsonVal.arr elems) none
          = Except.ok (ReadJsonOutcome.frame (dataFrameFromRecords (elems.map JsonVal.objFields)))
        ∧ (dataFrameFromRecords (elems.map JsonVal.objFields)).index.length = elems.length)
    ∧ (∀ fields : List (String × JsonVal), fields ≠ [] →
        (∀ kv ∈ fields, (kv.2).isArr = true) →
        read_json (JsonVal.obj fields) none
          = Except.ok (ReadJsonOutcome.frame (dataFrameFromColumnsDict fields))
        ∧ (dataFrameFromColumnsDict fields).columns = fields.map Prod.fst)
    ∧ (∀ fields : List (String × JsonVal), fields ≠ [] →
        (∀ kv ∈ fields, (kv.2).isObj = true) →
        read_json (JsonVal.obj fields) none
          = Except.ok (ReadJsonOutcome.frame (dataFrameFromIndexDict fields))
        ∧ (dataFrameFromIndexDict fields).index = fields.map Prod.fst)
    ∧ (∀ fields : List (String × JsonVal),
        (∀ kv ∈ fields, (kv.2).isScalar = true) →
        read_json (JsonVal.obj fields) none
          = Except.ok (ReadJsonOutcome.frame (dataFrameSingleRow fields))
        ∧ (dataFrameSingleRow fields).index.length = 1)
    ∧ (∀ (data : JsonVal) (orient : String), data.isArr = true ∨ data.isObj = true →
        read_json data (some orient) = Except.ok (ReadJsonOutcome.explicitOrient orient))
    ∧ (∀ fields : List (String × JsonVal),
        (containsKey fields "data" && containsKey fields "columns") = false →
        (containsKey fields "columns" && containsKey fields "index") = false →
        json_to_csv_read (JsonVal.obj fields)
          = Except.ok (ModuleJsonOutcome.frame (dataFrameSingleRow fields))
        ∧ (dataFrameSingleRow fields).index.length = 1) := by
  refine ⟨?_, ?_, ?_, ?_, ?_, ?_⟩
  · intro elems hall
    constructor
    · show Except.ok (ReadJsonOutcome.frame (dataFrameFromList elems)) = _
      unfold dataFrameFromList
      rw [if_pos (List.all_eq_true.mpr hall)]
    · show ((List.range (elems.map JsonVal.objFields).length).map _).length = _
      rw [List.length_map, List.length_range, List.length_map]
  · intro fields hne hall
    obtain ⟨⟨k, v⟩, rest, rfl⟩ := List.exists_cons_of_ne_nil hne
    have hv := hall (k, v) (List.mem_cons_self _ _)
    cases v with
    | arr xs => exact ⟨rfl, rfl⟩
    | obj f => simp [JsonVal.isArr] at hv
    | str s => simp [JsonVal.isArr] at hv
    | num n => simp [JsonVal.isArr] at hv
    | bool b => simp [JsonVal.isArr] at hv
    | null => simp [JsonVal.isArr] at hv
  · intro fields hne hall
    obtain ⟨⟨k, v⟩, rest, rfl⟩ := List.exists_cons_of_ne_nil hne
    have hv := hall (k, v) (List.mem_cons_self _ _)
    cases v with
    | obj f => exact ⟨rfl, rfl⟩
    | arr xs => simp [JsonVal.isObj] at hv
    | str s => simp [JsonVal.isObj] at hv
    | num n => simp [JsonVal.isObj] at hv
    | bool b => simp [JsonVal.isObj] at hv
    | null => simp [JsonVal.isObj] at hv
  · intro fields hall
    cases fields with
    | nil => exact ⟨rfl, rfl⟩
    | cons kv rest =>
        have hv := hall kv (List.mem_cons_self _ _)
        obtain ⟨k, v⟩ := kv
        cases v with
        | obj f => simp [JsonVal.isScalar, JsonVal.isObj] at hv
        | arr xs => simp [JsonVal.isScalar, JsonVal.isArr] at hv
        | str s => exact ⟨rfl, rfl⟩
        | num n => exact ⟨rfl, rfl⟩
        | bool b => exact ⟨rfl, rfl⟩
        | null => exact ⟨rfl, rfl⟩
  · intro data orient h
    cases data with
    | arr elems => rfl
    | obj fields => rfl
    | str s => rcases h with h | h <;> simp [JsonVal.isArr, JsonVal.isObj] at h
    | num n => rcases h with h | h <;> simp [JsonVal.isArr, JsonVal.isObj] at h
    | bool b => rcases h with h | h <;> simp [JsonVal.isArr, JsonVal.isObj] at h
    | null => rcases h with h | h <;> simp [JsonVal.isArr, JsonVal.isObj] at h
  · intro fields h1 h2
    refine ⟨?_, rfl⟩
    unfold json_to_csv_read
    simp [h1, h2]

/-- C5 (witness): the amended statement evaluated at concrete JSON values:
an array of two objects, an object of arrays, an object of objects, a flat
object, and an array read with an explicit orientation option for the
backend reader; and a plain object without `data`/`columns`/`index` keys
for the module-layer single-row path. -/
theorem c5_json_autodetect_witness :
    (read_json (JsonVal.arr [JsonVal.obj [("a", JsonVal.num 1)], JsonVal.obj [("a", JsonVal.num 2)]]) none
        = Except.ok (ReadJsonOutcome.frame (dataFrameFromRecords
            ([JsonVal.obj [("a", JsonVal.num 1)], JsonVal.obj [("a", JsonVal.num 2)]].map JsonVal.objFields)))
      ∧ (dataFrameFromRecords
            ([JsonVal.obj [("a", JsonVal.num 1)], JsonVal.obj [("a", JsonVal.num 2)]].map JsonVal.objFields)).index.length
        = [JsonVal.obj [("a", JsonVal.num 1)], JsonVal.obj [("a", JsonVal.num 2)]].length)
    ∧ (read_json (JsonVal.obj [("a", JsonVal.arr [JsonVal.num 1, JsonVal.num 2])]) none
        = Except.ok (ReadJsonOutcome.frame (dataFrameFromColumnsDict
            [("a", JsonVal.arr [JsonVal.num 1, JsonVal.num 2])]))
      ∧ (dataFrameFromColumnsDict [("a", JsonVal.arr [JsonVal.num 1, JsonVal.num 2])]).columns
        = [("a", JsonVal.arr [JsonVal.num 1, JsonVal.num 2])].map Prod.fst)
    ∧ (read_json (JsonVal.obj [("r1", JsonVal.obj [("x", JsonVal.num 1)])]) none
        = Except.ok (ReadJsonOutcome.frame (dataFrameFromIndexDict
            [("r1", JsonVal.obj [("x", JsonVal.num 1)])]))
      ∧ (dataFrameFromIndexDict [("r1", JsonVal.obj [("x", JsonVal.num 1)])]).index
        = [("r1", JsonVal.obj [("x", JsonVal.num 1)])].map Prod.fst)
    ∧ (read_json (JsonVal.obj [("a", JsonVal.num 1)]) none
        = Except.ok (ReadJsonOutcome.frame (dataFrameSingleRow [("a", JsonVal.num 1)]))
      ∧ (dataFrameSingleRow [("a", JsonVal.num 1)]).index.length = 1)
    ∧ read_json (JsonVal.arr []) (some "records")
        = Except.ok (ReadJsonOutcome.explicitOrient "records")
    ∧ (json_to_csv_read (JsonVal.obj [("b", JsonVal.num 2)])
          = Except.ok (ModuleJsonOutcome.frame (dataFrameSingleRow [("b", JsonVal.num 2)]))
        ∧ (dataFrameSingleRow [("b", JsonVal.num 2)]).index.length = 1) :=
  ⟨c5_json_autodetect.1 [JsonVal.obj [("a", JsonVal.num 1)], JsonVal.obj [("a", JsonVal.num 2)]]
      (by decide),
   c5_json_autodetect.2.1 [("a", JsonVal.arr [JsonVal.num 1, JsonVal.num 2])]
      (List.cons_ne_nil _ _)
      (by decide),
   c5_json_autodetect.2.2.1 [("r1", JsonVal.obj [("x", JsonVal.num 1)])]
      (List.cons_ne_nil _ _)
      (by decide),
   c5_json_autodetect.2.2.2.1 [("a", JsonVal.num 1)]
      (by decide),
   c5_json_autodetect.2.2.2.2.1 (JsonVal.arr []) "records" (Or.inl rfl),
   c5_json_autodetect.2.2.2.2.2 [("b", JsonVal.num 2)] (by decide) (by decide)⟩

/-! ## C6: transformation order and silent column selection -/

theorem getD_nameIdx (hs : List DColumnMeta) (c : String)
    (h : c ∈ hs.map DColumnMeta.name) :
    (hs.getD (nameIdx c hs) default).name = c := by
  induction hs with
  | nil => simp at h
  | cons hd rest ih =>
      by_cases he : hd.name = c
      · simp [nameIdx, he]
      · rw [List.map_cons, List.mem_cons] at h
        rcases h with h | h
        · exact absurd h.symm he
        · unfold nameIdx
          rw [if_neg he, List.getD_cons_succ]
          exact ih h

/-- C6: `_apply_transformations` applies the requested operations in the
fixed order drop-empty-rows, drop-empty-columns, strip-whitespace, rename,
column-selection; a selection keeps exactly the requested columns present in
the table (in request order), and a selection none of whose columns is
present leaves the table unchanged — missing columns are silently ignored
and never an error (the function is total). -/
theorem c6_transform_order :
    (∀ (t : DTable) (o : TransformOptions),
        apply_transformations t o
          = selectColumnsStep o.columns
              ((fun df => match o.rename_columns with
                 | some m => if m ≠ [] then renameStep m df else df
                 | none => df)
               ((fun df => if o.strip_whitespace then stripWhitespaceStep df else df)
                ((fun df => if o.drop_empty_columns then dropEmptyColumnsStep df else df)
                 ((fun df => if o.drop_empty_rows then dropEmptyRowsStep df else df) t)))))
    ∧ (∀ (t : DTable) (sel : List String), sel ≠ [] →
        sel.filter (fun c => c ∈ t.names) ≠ [] →
        (selectColumnsStep (some sel) t).names = sel.filter (fun c => c ∈ t.names))
    ∧ (∀ (t : DTable) (sel : List String), (∀ c ∈ sel, c ∉ t.names) →
        selectColumnsStep (some sel) t = t) := by
  refine ⟨?_, ?_, ?_⟩
  · intro t o
    rfl
  · intro t sel hne hav
    simp only [selectColumnsStep]
    rw [if_pos hne, if_pos hav]
    unfold projectColumns DTable.names
    simp only [List.map_map]
    refine Eq.trans (List.map_congr_left ?_) (List.map_id _)
    intro c hc
    have hmem : c ∈ List.map DColumnMeta.name t.headers :=
      of_decide_eq_true (List.mem_filter.mp hc).2
    show (t.headers.getD (nameIdx c t.headers) default).name = id c
    exact getD_nameIdx t.headers c hmem
  · intro t sel h
    simp only [selectColumnsStep]
    by_cases hsel : sel = []
    · rw [if_neg (fun hn => hn hsel)]
    · rw [if_pos hsel]
      have hav : sel.filter (fun c => c ∈ t.names) = [] := by
        rw [List.filter_eq_nil_iff]
        intro c hc
        simpa using h c hc
      rw [hav]
      rw [if_neg (fun hn => hn rfl)]

/-- C6 (witness): the order equation at a concrete table with every
operation requested; a selection `["b", "zz"]` keeps exactly the present
column `b`; a selection `["zz"]` of only absent columns leaves the table
unchanged. -/
theorem c6_transform_order_witness :
    (apply_transformations
        ⟨[⟨"a", true⟩, ⟨"b", false⟩], [[Cell.str " x ", Cell.num 1]]⟩
        ⟨true, true, true, some [("a", "a2")], some ["a2"]⟩
      = selectColumnsStep (some ["a2"])
          ((fun df => match some [("a", "a2")] with
             | some m => if m ≠ [] then renameStep m df else df
             | none => df)
           ((fun df => if true then stripWhitespaceStep df else df)
            ((fun df => if true then dropEmptyColumnsStep df else df)
             ((fun df => if true then dropEmptyRowsStep df else df)
               ⟨[⟨"a", true⟩, ⟨"b", false⟩], [[Cell.str " x ", Cell.num 1]]⟩)))))
    ∧ (selectColumnsStep (some ["b", "zz"])
          ⟨[⟨"a", true⟩, ⟨"b", false⟩], [[Cell.str " x ", Cell.num 1]]⟩).names
        = ["b", "zz"].filter
            (fun c => c ∈ (⟨[⟨"a", true⟩, ⟨"b", false⟩], [[Cell.str " x ", Cell.num 1]]⟩ : DTable).names)
    ∧ selectColumnsStep (some ["zz"])
          ⟨[⟨"a", true⟩, ⟨"b", false⟩], [[Cell.str " x ", Cell.num 1]]⟩
        = ⟨[⟨"a", true⟩, ⟨"b", false⟩], [[Cell.str " x ", Cell.num 1]]⟩ :=
  ⟨c6_transform_order.1 ⟨[⟨"a", true⟩, ⟨"b", false⟩], [[Cell.str " x ", Cell.num 1]]⟩
      ⟨true, true, true, some [("a", "a2")], some ["a2"]⟩,
   c6_transform_order.2.1 ⟨[⟨"a", true⟩, ⟨"b", false⟩], [[Cell.str " x ", Cell.num 1]]⟩
      ["b", "zz"] (by decide) (by decide),
   c6_transform_order.2.2 ⟨[⟨"a", true⟩, ⟨"b", false⟩], [[Cell.str " x ", Cell.num 1]]⟩
      ["zz"] (by decide)⟩

/-! ## C7: CSV latin-1 retry -/

/-- C7: when the bytes of a CSV file fail to decode under the declared
`utf-8` encoding, `_read_csv` retries exactly once with `latin-1`; since
latin-1 decoding is total, the retry decodes and the file is read
successfully (the result is the parse of the latin-1 decoding) rather than
failing.  When the declared encoding succeeds there is no retry and the
result is the parse of the utf-8 decoding. -/
theorem c7_csv_latin1_retry :
    (∀ (bytes : List Nat) (delimiter : Char) (headerRow : Bool),
        decodeUtf8? bytes = none →
        read_csv bytes CsvEncoding.utf8 delimiter headerRow
          = Except.ok (parse_csv (decodeLatin1 bytes) delimiter headerRow))
    ∧ (∀ (bytes : List Nat) (chars : List Char) (delimiter : Char) (headerRow : Bool),
        decodeUtf8? bytes = some chars →
        read_csv bytes CsvEncoding.utf8 delimiter headerRow
          = Except.ok (parse_csv chars delimiter headerRow)) := by
  constructor
  · intro bytes delimiter headerRow hdec
    unfold read_csv pd_read_csv
    rw [hdec]
  · intro bytes chars delimiter headerRow hdec
    unfold read_csv pd_read_csv
    rw [hdec]

/-- C7 (witness): the byte `0xFF` is never valid UTF-8, so the one-byte file
`[255]` falls back to latin-1 and reads successfully as the single cell `ÿ`;
the valid UTF-8 file `a,b` reads without any retry. -/
theorem c7_csv_latin1_retry_witness :
    read_csv [255] CsvEncoding.utf8 ',' false
        = Except.ok (parse_csv (decodeLatin1 [255]) ',' false)
    ∧ read_csv [97, 44, 98] CsvEncoding.utf8 ',' false
        = Except.ok (parse_csv ['a', ',', 'b'] ',' false) :=
  ⟨c7_csv_latin1_retry.1 [255] ',' false (by decide),
   c7_csv_latin1_retry.2 [97, 44, 98] ['a', ',', 'b'] ',' false (by decide)⟩

/-! ## C8: quality validation at construction time -/

/-- C8: a quality value outside `[1, 100]` makes the
`ImageConversionOptions` constructor raise
"Quality must be between 1 and 100" (fail-fast, before any pipeline work: no
options value is ever produced); a quality inside `[1, 100]` is accepted,
stored unchanged, passed unchanged into the JPEG save parameters, and also
passes the backend `_validate_quality` clamp unchanged. -/
theorem c8_quality_validation :
    (∀ (quality : Int) (width height : Option Int) (scale : Option ℚ)
        (preserveAspect optimize : Bool),
        (quality < 1 ∨ quality > 100) →
        mk_image_conversion_options quality width height scale preserveAspect optimize
          = Except.error "Quality must be between 1 and 100")
    ∧ (∀ quality : Int, 1 ≤ quality → quality ≤ 100 →
        mk_image_conversion_options quality none none none true true
          = Except.ok ⟨quality, none, none, none, true, true⟩
        ∧ save_kwargs_quality ImageFormat.jpg ⟨quality, none, none, none, true, true⟩
          = some quality
        ∧ validate_quality quality = quality) := by
  constructor
  · intro quality width height scale preserveAspect optimize h
    unfold mk_image_conversion_options
    rw [if_pos h]
  · intro quality h1 h2
    refine ⟨?_, ?_, ?_⟩
    · unfold mk_image_conversion_options
      rw [if_neg (by omega)]
      rfl
    · rfl
    · unfold validate_quality
      omega

/-- C8 (witness): quality 150 is rejected at construction; quality 90 is
accepted, used unchanged in the JPEG save parameters, and unchanged by the
backend clamp. -/
theorem c8_quality_validation_witness :
    mk_image_conversion_options 150 none none none true true
        = Except.error "Quality must be between 1 and 100"
    ∧ (mk_image_conversion_options 90 none none none true true
          = Except.ok ⟨90, none, none, none, true, true⟩
        ∧ save_kwargs_quality ImageFormat.jpg ⟨90, none, none, none, true, true⟩ = some 90
        ∧ validate_quality 90 = 90) :=
  ⟨c8_quality_validation.1 150 none none none true true (by omega),
   c8_quality_validation.2 90 (by omega) (by omega)⟩

/-! ## C9: batch status and completeness -/

theorem foldl_add_result_results (g : String → ConversionResult) (l : List String)
    (acc : BatchConversionResult) :
    (l.foldl (fun a p => add_result a (g p)) acc).results = acc.results ++ l.map g := by
  induction l generalizing acc with
  | nil => simp
  | cons x xs ih =>
      show ((xs.foldl (fun a p => add_result a (g p)) (add_result acc (g x)))).results = _
      rw [ih, add_result]
      simp

/-- C9: `batch_convert` processes every input in order — its results are the
map of the single-file converter over the input list, so one failing file
(returned as a `FAILURE` result) never aborts the remaining files; and the
overall status of a batch is `SKIPPED` iff there are no results, `SUCCESS`
iff there is at least one result and all succeeded, `PARTIAL_SUCCESS` iff
some result succeeded and some did not, and `FAILURE` iff there is at least
one result and none succeeded (where a result counts as succeeded when its
status is `SUCCESS` or `PARTIAL_SUCCESS`). -/
theorem c9_batch_status :
    (∀ (convertFn : String → String → ConversionResult) (input_paths : List String)
        (output_dir output_ext : String),
        (batch_convert convertFn input_paths output_dir output_ext).results
          = input_paths.map
              (fun p => convertFn p (output_dir ++ "/" ++ pathStem p ++ output_ext)))
    ∧ (∀ b : BatchConversionResult,
        (batchStatus b = ConversionStatus.skipped ↔ b.results = [])
        ∧ (batchStatus b = ConversionStatus.success ↔
            (b.results ≠ [] ∧ ∀ r ∈ b.results, r.is_success = true))
        ∧ (batchStatus b = ConversionStatus.partialSuccess ↔
            ((∃ r ∈ b.results, r.is_success = true) ∧ ∃ r ∈ b.results, r.is_success = false))
        ∧ (batchStatus b = ConversionStatus.failure ↔
            (b.results ≠ [] ∧ ∀ r ∈ b.results, r.is_success = false))) := by
  constructor
  · intro convertFn input_paths output_dir output_ext
    unfold batch_convert
    by_cases h : input_paths = []
    · subst h
      rfl
    · rw [if_neg h, foldl_add_result_results]
      rfl
  · intro b
    unfold batchStatus
    by_cases he : b.results = []
    · rw [if_pos he]
      refine ⟨by simp [he], by simp [he], by simp [he], by simp [he]⟩
    · rw [if_neg he]
      by_cases h1 : b.results.countP (fun r => r.is_success) = b.results.length
      · rw [if_pos h1]
        have hall : ∀ r ∈ b.results, r.is_success = true := by
          intro r hr
          exact List.countP_eq_length.mp h1 r hr
        obtain ⟨r0, hr0⟩ := List.exists_mem_of_ne_nil b.results he
        refine ⟨by simp [he], iff_of_true rfl ⟨he, hall⟩, ?_, ?_⟩
        · refine iff_of_false (by simp) ?_
          rintro ⟨_, ⟨r, hr, hf⟩⟩
          rw [hall r hr] at hf
          cases hf
        · refine iff_of_false (by simp) ?_
          rintro ⟨_, hallf⟩
          have h1 := hall r0 hr0
          have h2 := hallf r0 hr0
          rw [h1] at h2
          cases h2
      · rw [if_neg h1]
        by_cases h2 : b.results.countP (fun r => r.is_success) > 0
        · rw [if_pos h2]
          obtain ⟨r1, hr1, ht1⟩ := List.countP_pos_iff.mp h2
          have hexf : ∃ r ∈ b.results, r.is_success = false := by
            by_contra hc
            refine h1 (List.countP_eq_length.mpr ?_)
            intro r hr
            cases hb : r.is_success
            · exact absurd ⟨r, hr, hb⟩ hc
            · rfl
          refine ⟨by simp [he], ?_, ?_, ?_⟩
          · refine iff_of_false (by simp) ?_
            rintro ⟨_, hall⟩
            obtain ⟨r, hr, hf⟩ := hexf
            rw [hall r hr] at hf
            cases hf
          · exact iff_of_true rfl ⟨⟨r1, hr1, ht1⟩, hexf⟩
          · refine iff_of_false (by simp) ?_
            rintro ⟨_, hallf⟩
            have := hallf r1 hr1
            rw [ht1] at this
            cases this
        · rw [if_neg h2]
          have hallf : ∀ r ∈ b.results, r.is_success = false := by
            intro r hr
            cases hb : r.is_success
            · rfl
            · exact absurd (List.countP_pos_iff.mpr ⟨r, hr, hb⟩) h2
          obtain ⟨r0, hr0⟩ := List.exists_mem_of_ne_nil b.results he
          refine ⟨by simp [he], ?_, ?_, iff_of_true rfl ⟨he, hallf⟩⟩
          · refine iff_of_false (by simp) ?_
            rintro ⟨_, hall⟩
            have h3 := hallf r0 hr0
            rw [hall r0 hr0] at h3
            cases h3
          · refine iff_of_false (by simp) ?_
            rintro ⟨⟨r, hr, ht⟩, _⟩
            have := hallf r hr
            rw [ht] at this
            cases this

/-- C9 (witness): the statement evaluated on a concrete two-file batch with
one success and one failure: both files appear in the results, and the batch
of those two results has status `PARTIAL_SUCCESS`; the empty batch is
`SKIPPED`. -/
theorem c9_batch_status_witness :
    (batch_convert
        (fun p _ => if p = "a.png" then sampleSuccessResult else sampleFailureResult)
        ["a.png", "b.png"] "out" ".jpg").results
      = ["a.png", "b.png"].map
          (fun p => (fun p _ => if p = "a.png" then sampleSuccessResult else sampleFailureResult)
            p ("out" ++ "/" ++ pathStem p ++ ".jpg"))
    ∧ (batchStatus ⟨[sampleSuccessResult, sampleFailureResult], emptyStatistics⟩
        = ConversionStatus.partialSuccess ↔
        ((∃ r ∈ [sampleSuccessResult, sampleFailureResult], r.is_success = true)
          ∧ ∃ r ∈ [sampleSuccessResult, sampleFailureResult], r.is_success = false))
    ∧ (batchStatus emptyBatch = ConversionStatus.skipped ↔ emptyBatch.results = []) :=
  ⟨c9_batch_status.1
      (fun p _ => if p = "a.png" then sampleSuccessResult else sampleFailureResult)
      ["a.png", "b.png"] "out" ".jpg",
   (c9_batch_status.2 ⟨[sampleSuccessResult, sampleFailureResult], emptyStatistics⟩).2.2.1,
   (c9_batch_status.2 emptyBatch).1⟩

/-! ## C10: batch statistics partition invariant -/

theorem add_result_preserves_partition (b : BatchConversionResult) (r : ConversionResult)
    (h1 : b.statistics.files_processed = b.results.length)
    (h2 : b.statistics.files_processed
        = b.statistics.files_succeeded + b.statistics.files_failed
          + b.statistics.files_skipped) :
    (add_result b r).statistics.files_processed = (add_result b r).results.length
    ∧ (add_result b r).statistics.files_processed
        = (add_result b r).statistics.files_succeeded
          + (add_result b r).statistics.files_failed
          + (add_result b r).statistics.files_skipped := by
  constructor
  · show b.statistics.files_processed + 1 = (b.results ++ [r]).length
    rw [List.length_append, h1]
    rfl
  · show b.statistics.files_processed + 1 = _
    cases hs : r.status <;>
      simp [add_result, update_statistics, ConversionResult.is_success, hs] <;>
      omega

theorem foldl_add_result_partition (rs : List ConversionResult) (b : BatchConversionResult)
    (h1 : b.statistics.files_processed = b.results.length)
    (h2 : b.statistics.files_processed
        = b.statistics.files_succeeded + b.statistics.files_failed
          + b.statistics.files_skipped) :
    (rs.foldl add_result b).statistics.files_processed
        = (rs.foldl add_result b).results.length
    ∧ (rs.foldl add_result b).statistics.files_processed
        = (rs.foldl add_result b).statistics.files_succeeded
          + (rs.foldl add_result b).statistics.files_failed
          + (rs.foldl add_result b).statistics.files_skipped := by
  induction rs generalizing b with
  | nil => exact ⟨h1, h2⟩
  | cons r rest ih =>
      have h := add_result_preserves_partition b r h1 h2
      exact ih (add_result b r) h.1 h.2

/-- C10: after any sequence of `add_result` calls starting from the fresh
`BatchConversionResult`, `files_processed` equals the number of results and
equals `files_succeeded + files_failed + files_skipped`: every
`ConversionStatus` is counted in exactly one bucket (`SUCCESS` and
`PARTIAL_SUCCESS` as succeeded, `FAILURE` as failed, `SKIPPED` as
skipped). -/
theorem c10_statistics_partition (rs : List ConversionResult) :
    (rs.foldl add_result emptyBatch).statistics.files_processed
        = (rs.foldl add_result emptyBatch).results.length
    ∧ (rs.foldl add_result emptyBatch).statistics.files_processed
        = (rs.foldl add_result emptyBatch).statistics.files_succeeded
          + (rs.foldl add_result emptyBatch).statistics.files_failed
          + (rs.foldl add_result emptyBatch).statistics.files_skipped :=
  foldl_add_result_partition rs emptyBatch rfl rfl
